import Mathlib

/-!
Shallow embedding of the Suade backend-challenge ingestion and query core.

The Python sources embedded here are:
  * `app/utils/validators.py`  — schema resolution and row normalisation;
  * `app/utils/state.py`       — manifest (Checksum Index) helpers;
  * `app/utils/file_handler.py`— the ingestion pipeline `save_upload_to_disk`
                                 and the atomic merge `_append_to_master_parquet`;
  * `app/routes/summary.py`    — the per-user summary query.

Modelling conventions: pandas DataFrames are lists of string rows; raised
HTTPExceptions are `Except.error` values carried alongside the state (the
manifest side effects already performed when an exception propagates are kept,
as in the Python, where `append_ingest` writes happen before `raise`);
machine-level concerns (file locks, fsync, the atomic rename) are represented
by pure state update, which is exactly the atomicity contract the code
provides.  `sha256_bytes` and `pd.read_csv` are kept as explicit function
parameters: the pipeline only ever uses the hash as a deterministic key and
the parser as a fallible bytes-to-table step, so every theorem below holds for
all choices of these functions.
-/

/-- Errors raised by `app/utils/error_utils.py::raise_error`, with the payload
fields each call site supplies (`ErrorType` plus `detail`). -/
inductive ApiErr where
  | invalidFileType : ApiErr
  | fileTooLarge (limit : Nat) : ApiErr
  | unreadableCsv (detail : String) : ApiErr
  | missingColumns (missing : List String) (expected : List String) : ApiErr
  | emptyCsv (detail : Option String) : ApiErr
  | invalidTimestamp (detail : String) : ApiErr
  | userNotFound (detail : String) : ApiErr
deriving Repr, DecidableEq

/-- `_STATUS_MAP` from `error_utils.py`. -/
def statusOf : ApiErr → Nat
  | .invalidFileType => 400
  | .fileTooLarge _ => 413
  | .unreadableCsv _ => 400
  | .missingColumns _ _ => 422
  | .emptyCsv _ => 422
  | .invalidTimestamp _ => 422
  | .userNotFound _ => 404

/-- Rendering of `str(HTTPException)` as recorded by the catch-all
`append_ingest(..., error=str(e))` in `save_upload_to_disk`.  Only the fact
that the string is present (non-null) matters to any property proved below. -/
def httpText (e : ApiErr) : String :=
  toString (statusOf e) ++ ": ingestion error"

/-- A UTC instant as pandas `Timestamp` components (`pd.to_datetime(..., utc=True)`).
`nanos` carries the fractional-second digits; `strftime` below ignores it. -/
structure UTCTime where
  year : Nat
  month : Nat
  day : Nat
  hour : Nat
  minute : Nat
  second : Nat
  nanos : Nat
deriving Repr, DecidableEq

/-- One decimal digit character; the `% 10` mirrors the fixed-width zero-padded
fields that `strftime` prints (every component the parser produces is already
within range, see `parseTimestamp`). -/
def digitChar (n : Nat) : Char := Char.ofNat (48 + n % 10)

/-- Two zero-padded decimal digits (`%m`, `%d`, `%H`, `%M`, `%S`). -/
def pad2L (n : Nat) : List Char := [digitChar (n / 10), digitChar n]

/-- Four zero-padded decimal digits (`%Y`). -/
def pad4L (n : Nat) : List Char :=
  [digitChar (n / 1000), digitChar (n / 100), digitChar (n / 10), digitChar n]

/-- `ts.dt.strftime("%Y-%m-%dT%H:%M:%SZ")` from `normalise_dataframe` step 5:
ISO-8601 UTC, `Z` suffix, second precision, fractional seconds dropped. -/
def formatIsoZ (t : UTCTime) : String :=
  String.mk (pad4L t.year ++ '-' :: pad2L t.month ++ '-' :: pad2L t.day ++
    'T' :: pad2L t.hour ++ ':' :: pad2L t.minute ++ ':' :: pad2L t.second ++ ['Z'])

/-- Recogniser for the persisted timestamp shape: exactly 20 characters,
`DDDD-DD-DDTDD:DD:DDZ` with decimal digits at the `D` positions. -/
def isIsoZSecond (s : String) : Bool :=
  match s.data with
  | [y1, y2, y3, y4, '-', m1, m2, '-', d1, d2, 'T',
     h1, h2, ':', n1, n2, ':', s1, s2, 'Z'] =>
      y1.isDigit && y2.isDigit && y3.isDigit && y4.isDigit &&
      m1.isDigit && m2.isDigit && d1.isDigit && d2.isDigit &&
      h1.isDigit && h2.isDigit && n1.isDigit && n2.isDigit &&
      s1.isDigit && s2.isDigit
  | _ => false

/-- Whitespace as stripped by Python `str.strip()` on the inputs in scope. -/
def isSpaceChar (c : Char) : Bool :=
  c == ' ' || c == '\t' || c == '\n' || c == '\r'

/-- Leading and trailing whitespace removed from a character list. -/
def trimChars (l : List Char) : List Char :=
  ((l.dropWhile isSpaceChar).reverse.dropWhile isSpaceChar).reverse

/-- Python `str.strip()`. -/
def trimStr (s : String) : String := String.mk (trimChars s.data)

/-- Python `str.lower()` (ASCII range, which covers every header variant). -/
def lowerStr (s : String) : String := String.mk (s.data.map Char.toLower)

/-- `upload.filename.lower().endswith(".csv")` from `save_upload_to_disk`. -/
def csvName (filename : String) : Bool :=
  List.isSuffixOf ".csv".data (lowerStr filename).data

/-- Digit run to a natural number. -/
def natOfDigits (l : List Char) : Nat :=
  l.foldl (fun acc c => acc * 10 + (c.toNat - 48)) 0

/-- Gregorian leap-year rule (pandas validates calendar dates). -/
def isLeapYear (y : Nat) : Bool :=
  (y % 4 == 0 && y % 100 != 0) || (y % 400 == 0)

/-- Days in a month, as validated by `pd.to_datetime`. -/
def daysInMonth (y m : Nat) : Nat :=
  if m == 2 then (if isLeapYear y then 29 else 28)
  else if m == 4 || m == 6 || m == 9 || m == 11 then 30
  else 31

/-- Fractional-second digits followed by an optional UTC designator.  The
returned value records the digits; its scale is irrelevant because the
formatter truncates fractional seconds entirely. -/
def parseFracTail (l : List Char) : Option Nat :=
  let digits := l.takeWhile Char.isDigit
  let rest := l.drop digits.length
  if digits.isEmpty then none
  else
    match rest with
    | [] => some (natOfDigits (digits.take 9))
    | ['Z'] => some (natOfDigits (digits.take 9))
    | ['+', '0', '0', ':', '0', '0'] => some (natOfDigits (digits.take 9))
    | _ => none

/-- End of an ISO timestamp: nothing, `Z`, `+00:00`, or a fractional part.
Non-UTC offsets are outside the modelled input space (the repository only
feeds UTC or naive timestamps, which `utc=True` treats as UTC). -/
def parseTail (l : List Char) : Option Nat :=
  match l with
  | [] => some 0
  | ['Z'] => some 0
  | ['+', '0', '0', ':', '0', '0'] => some 0
  | '.' :: rest => parseFracTail rest
  | _ => none

/-- `HH:MM[:SS[.frac]][Z|+00:00]` with range validation, as `pd.to_datetime`
accepts for the time-of-day portion. -/
def parseTimeTail (l : List Char) : Option (Nat × Nat × Nat × Nat) :=
  match l with
  | h1 :: h2 :: ':' :: n1 :: n2 :: rest =>
    if h1.isDigit && h2.isDigit && n1.isDigit && n2.isDigit then
      let h := natOfDigits [h1, h2]
      let mi := natOfDigits [n1, n2]
      if h < 24 && mi < 60 then
        match rest with
        | ':' :: s1 :: s2 :: rest2 =>
          if s1.isDigit && s2.isDigit then
            let sec := natOfDigits [s1, s2]
            if sec < 60 then (parseTail rest2).map (fun ns => (h, mi, sec, ns))
            else none
          else none
        | _ => (parseTail rest).map (fun ns => (h, mi, 0, ns))
      else none
    else none
  | _ => none

/-- Model of `pd.to_datetime(value, errors="coerce", utc=True)` on the ISO-8601
subset the repository exchanges: `YYYY-MM-DD` optionally followed by a time of
day, with calendar validation.  Unparseable input coerces to `none` (NaT). -/
def parseTimestamp (s : String) : Option UTCTime :=
  match trimChars s.data with
  | y1 :: y2 :: y3 :: y4 :: '-' :: m1 :: m2 :: '-' :: d1 :: d2 :: rest =>
    if y1.isDigit && y2.isDigit && y3.isDigit && y4.isDigit &&
       m1.isDigit && m2.isDigit && d1.isDigit && d2.isDigit then
      let y := natOfDigits [y1, y2, y3, y4]
      let mo := natOfDigits [m1, m2]
      let d := natOfDigits [d1, d2]
      if 1 ≤ mo ∧ mo ≤ 12 ∧ 1 ≤ d ∧ d ≤ daysInMonth y mo then
        match rest with
        | [] => some ⟨y, mo, d, 0, 0, 0, 0⟩
        | c :: rest2 =>
          if c == 'T' || c == ' ' then
            (parseTimeTail rest2).map (fun x => ⟨y, mo, d, x.1, x.2.1, x.2.2.1, x.2.2.2⟩)
          else none
      else none
    else none
  | _ => none

/-- Unsigned decimal literal `digits[.digits]` as an exact rational. -/
def parseUnsignedDec (l : List Char) : Option ℚ :=
  let intPart := l.takeWhile Char.isDigit
  let rest := l.drop intPart.length
  match rest with
  | [] => if intPart.isEmpty then none else some (natOfDigits intPart : ℚ)
  | '.' :: fracChars =>
    if fracChars.all Char.isDigit && !(intPart.isEmpty && fracChars.isEmpty) then
      some ((natOfDigits intPart : ℚ) +
        (natOfDigits fracChars : ℚ) / ((10 : ℚ) ^ fracChars.length))
    else none
  | _ => none

/-- Model of `pd.to_numeric(value, errors="coerce")` on plain signed decimals
(the exponent and special-value spellings pandas also accepts are outside the
modelled input space).  Failure coerces to `none` (NaN). -/
def parseDecimal (s : String) : Option ℚ :=
  match trimChars s.data with
  | [] => none
  | '-' :: rest => (parseUnsignedDec rest).map (fun q => -q)
  | '+' :: rest => parseUnsignedDec rest
  | l => parseUnsignedDec l

/-- Round-half-to-even to an integer, the tie rule of `numpy.round`. -/
def roundHalfEven (q : ℚ) : ℤ :=
  let f := Int.floor q
  let r := q - (f : ℚ)
  if r < 1 / 2 then f
  else if 1 / 2 < r then f + 1
  else if f % 2 = 0 then f else f + 1

/-- `.round(2)` from `normalise_dataframe` step 5, on exact rationals. -/
def round2 (q : ℚ) : ℚ := (roundHalfEven (q * 100) : ℚ) / 100

/-- One parsed CSV row restricted to the five resolved columns, every field a
raw string (`pd.read_csv(..., dtype=str, keep_default_na=False)`). -/
structure RawTx where
  transaction_id : String
  user_id : String
  product_id : String
  timestamp : String
  transaction_amount : String
deriving Repr, DecidableEq

/-- A normalised Transaction Row as persisted in the Master Dataset. -/
structure CleanTx where
  transaction_id : String
  user_id : String
  product_id : String
  timestamp : String
  transaction_amount : ℚ
deriving Repr, DecidableEq

/-- `validators.py::drop_rows_with_empty_requireds`: keep rows whose five
required fields are all non-empty after trimming. -/
def drop_rows_with_empty_requireds (l : List RawTx) : List RawTx :=
  l.filter (fun r =>
    trimStr r.transaction_id != "" && trimStr r.user_id != "" && trimStr r.product_id != "" &&
    trimStr r.timestamp != "" && trimStr r.transaction_amount != "")

/-- Per-row body of `normalise_dataframe` steps 2–5: trim the IDs, coerce
amount and timestamp (`none` on failure drops the row), then serialise in the
uniform persisted formats.  The row-wise fusion of pandas' column-wise
`valid_mask` filter followed by the formatting assignments. -/
def coerceRow (pa : String → Option ℚ) (pt : String → Option UTCTime)
    (r : RawTx) : Option CleanTx :=
  match pa r.transaction_amount, pt r.timestamp with
  | some a, some t =>
      some ⟨trimStr r.transaction_id, trimStr r.user_id, trimStr r.product_id,
            formatIsoZ t, round2 a⟩
  | _, _ => none

/-- `validators.py::normalise_dataframe`: coerce and drop invalid rows, failing
with `EMPTY_CSV` when nothing survives (its line 78). -/
def normalise_dataframe (pa : String → Option ℚ) (pt : String → Option UTCTime)
    (l : List RawTx) : Except ApiErr (List CleanTx) :=
  let valid := l.filterMap (coerceRow pa pt)
  if valid.isEmpty then .error (.emptyCsv (some "All rows invalid after coercion"))
  else .ok valid

/-- The rows that survive both dropping stages (the value a successful
`normalise_dataframe` returns after `drop_rows_with_empty_requireds`). -/
def survivingRows (pa : String → Option ℚ) (pt : String → Option UTCTime)
    (l : List RawTx) : List CleanTx :=
  (drop_rows_with_empty_requireds l).filterMap (coerceRow pa pt)

/-- The validation sequence of `save_upload_to_disk` lines 116–127:
`ensure_not_empty_df`, then `drop_rows_with_empty_requireds`, then
`normalise_dataframe` (whose internal empty check fires before the dead
`cleaned_rows == 0` branch in `file_handler.py`). -/
def validate_and_normalise (pa : String → Option ℚ) (pt : String → Option UTCTime)
    (l : List RawTx) : Except ApiErr (List CleanTx) :=
  if l.isEmpty then .error (.emptyCsv (some "CSV has headers but zero rows"))
  else normalise_dataframe pa pt (drop_rows_with_empty_requireds l)

/-- Acceptable lowercase header variants, `validators.py::REQUIRED_COLUMNS`
(the Python set literals written out in source order). -/
def tidVariants : List String :=
  ["transaction_id", "transactionid", "transaction-id", "transaction id"]

/-- Variants for `user_id`. -/
def uidVariants : List String :=
  ["user_id", "userid", "user-id", "user id", "user"]

/-- Variants for `product_id`. -/
def pidVariants : List String :=
  ["product_id", "productid", "product-id", "product id", "product"]

/-- Variants for `timestamp`. -/
def tsVariants : List String :=
  ["timestamp", "time_stamp", "date", "datetime", "time stamp"]

/-- Variants for `transaction_amount`. -/
def amtVariants : List String :=
  ["transaction_amount", "amount", "value", "price", "transaction amount"]

/-- `REQUIRED_COLUMNS` in its source iteration order. -/
def REQUIRED_COLUMNS : List (String × List String) :=
  [("transaction_id", tidVariants), ("user_id", uidVariants),
   ("product_id", pidVariants), ("timestamp", tsVariants),
   ("transaction_amount", amtVariants)]

/-- `list(REQUIRED_COLUMNS.keys())`, the `expected` payload of the error. -/
def canonicalFields : List String :=
  ["transaction_id", "user_id", "product_id", "timestamp", "transaction_amount"]

/-- `lower_cols[v]` lookup through `_lower_map`: the dict comprehension keeps
the last column with a given lowercase form, hence the reversed scan. -/
def lowerLookup (cols : List String) (v : String) : Option String :=
  cols.reverse.findSome? (fun c => if lowerStr c == v then some c else none)

/-- `next((lower_cols[v] for v in variants if v in lower_cols), None)`. -/
def resolveField (cols : List String) (variants : List String) : Option String :=
  variants.findSome? (fun v => lowerLookup cols v)

/-- The canonical fields with no acceptable variant among `cols` under
case-insensitive matching, in canonical order. -/
def missingFields (cols : List String) : List String :=
  REQUIRED_COLUMNS.filterMap
    (fun p => if (resolveField cols p.2).isSome then none else some p.1)

/-- The resolved mapping canonical field → actual header. -/
structure ColMap where
  transaction_id : String
  user_id : String
  product_id : String
  timestamp : String
  transaction_amount : String
deriving Repr, DecidableEq

/-- A parsed CSV table: header names and aligned string rows. -/
structure DataFrameM where
  cols : List String
  rows : List (List String)
deriving Repr, DecidableEq

/-- `validators.py::resolve_required_columns_from_df`, the source loop over
`REQUIRED_COLUMNS.items()` unrolled: the first canonical field with no variant
present raises `MISSING_COLUMNS` with `missing=[target]` and the full expected
list. -/
def resolve_required_columns_from_df (df : DataFrameM) : Except ApiErr ColMap :=
  match resolveField df.cols tidVariants with
  | none => .error (.missingColumns ["transaction_id"] canonicalFields)
  | some a1 =>
    match resolveField df.cols uidVariants with
    | none => .error (.missingColumns ["user_id"] canonicalFields)
    | some a2 =>
      match resolveField df.cols pidVariants with
      | none => .error (.missingColumns ["product_id"] canonicalFields)
      | some a3 =>
        match resolveField df.cols tsVariants with
        | none => .error (.missingColumns ["timestamp"] canonicalFields)
        | some a4 =>
          match resolveField df.cols amtVariants with
          | none => .error (.missingColumns ["transaction_amount"] canonicalFields)
          | some a5 => .ok ⟨a1, a2, a3, a4, a5⟩

/-- Cell of `row` under the header `actual` (pandas column indexing). -/
def cellOf (cols : List String) (row : List String) (actual : String) : String :=
  match cols.findIdx? (fun c => c == actual) with
  | some i => row.getD i ""
  | none => ""

/-- Restriction of a parsed row to the five resolved columns, the column
selection `df[req_actual]` performs. -/
def rawTxOf (cols : List String) (cm : ColMap) (row : List String) : RawTx :=
  ⟨cellOf cols row cm.transaction_id, cellOf cols row cm.user_id,
   cellOf cols row cm.product_id, cellOf cols row cm.timestamp,
   cellOf cols row cm.transaction_amount⟩

/-- One manifest entry, `state.py::append_ingest`'s record shape. -/
structure IngestRecord where
  ingest_id : String
  status : String
  checksum_sha256 : String
  rows_appended : Option Nat
  error : Option String
deriving Repr, DecidableEq

/-- Durable state: the Master Dataset (if it exists) and the manifest file as
a list of lines, where `none` stands for a malformed or unparseable line. -/
structure SystemState where
  master : Option (List CleanTx)
  manifest : List (Option IngestRecord)
deriving Repr, DecidableEq

/-- `state.py::_iter_manifest`: yield the JSON-parseable lines, silently
skipping malformed ones. -/
def iterManifest (m : List (Option IngestRecord)) : List IngestRecord :=
  m.filterMap id

/-- `state.py::find_by_checksum`: first manifest record with this checksum and
status `ready`. -/
def find_by_checksum (m : List (Option IngestRecord)) (checksum : String) :
    Option IngestRecord :=
  (iterManifest m).find? (fun rec =>
    rec.checksum_sha256 == checksum && rec.status == "ready")

/-- `state.py::append_ingest`: append one well-formed record to the manifest. -/
def append_ingest (st : SystemState) (ingestId status checksum : String)
    (rows : Option Nat) (err : Option String) : SystemState :=
  ⟨st.master, st.manifest ++ [some ⟨ingestId, status, checksum, rows, err⟩]⟩

/-- Number of `ready` manifest records carrying this checksum. -/
def countReady (m : List (Option IngestRecord)) (checksum : String) : Nat :=
  ((iterManifest m).filter (fun rec =>
    rec.checksum_sha256 == checksum && rec.status == "ready")).length

/-- `file_handler.py::_append_to_master_parquet`: create the dataset from the
new rows, or concatenate the existing rows with the new ones
(`pl.concat([existing, new_pl], how="vertical_relaxed")` followed by the
atomic replace). -/
def mergeMaster : Option (List CleanTx) → List CleanTx → List CleanTx
  | none, newRows => newRows
  | some existing, newRows => existing ++ newRows

/-- `state.py::MASTER_PARQUET`. -/
def MASTER_PARQUET : String := "data/transactions.parquet"

/-- `file_handler.py::FINAL_CSV_PATH`. -/
def FINAL_CSV_PATH : String := "data/transactions.csv"

/-- `file_handler.py::save_upload_to_disk`, the Dedup Coordinator.  Parameters
`hash` and `parse` stand for `sha256_bytes` and `pd.read_csv`; `pa`/`pt` for
the pandas coercions inside `normalise_dataframe`.  The returned state carries
every manifest append performed before an exception propagates. -/
def save_upload_to_disk (hash : List Nat → String)
    (parse : List Nat → Except String DataFrameM)
    (pa : String → Option ℚ) (pt : String → Option UTCTime)
    (maxBytes : Nat) (ingestId : String) (filename : String) (raw : List Nat)
    (st : SystemState) : SystemState × Except ApiErr String :=
  if csvName filename = false then
    (st, .error .invalidFileType)
  else if maxBytes < raw.length then
    (st, .error (.fileTooLarge maxBytes))
  else if raw.isEmpty then
    (st, .error (.emptyCsv none))
  else
    match find_by_checksum st.manifest (hash raw) with
    | some _ =>
      (st, .ok (if st.master.isSome then MASTER_PARQUET else FINAL_CSV_PATH))
    | none =>
      match parse raw with
      | .error e =>
        let st1 := append_ingest st ingestId "failed" (hash raw) none (some e)
        let st2 := append_ingest st1 ingestId "failed" (hash raw) none
          (some (httpText (.unreadableCsv e)))
        (st2, .error (.unreadableCsv e))
      | .ok df =>
        match resolve_required_columns_from_df df with
        | .error err =>
          (append_ingest st ingestId "failed" (hash raw) none (some (httpText err)),
           .error err)
        | .ok cm =>
          match validate_and_normalise pa pt (df.rows.map (rawTxOf df.cols cm)) with
          | .error err =>
            (append_ingest st ingestId "failed" (hash raw) none (some (httpText err)),
             .error err)
          | .ok clean =>
            let st1 : SystemState := ⟨some (mergeMaster st.master clean), st.manifest⟩
            (append_ingest st1 ingestId "ready" (hash raw) (some clean.length) none,
             .ok MASTER_PARQUET)

/-- The summary payload of `app/routes/summary.py`. -/
structure SummaryOk where
  user_id : String
  count : Nat
  min : Option ℚ
  max : Option ℚ
  mean : Option ℚ
  total : Option ℚ
  first_transaction : Option String
  last_transaction : Option String
deriving Repr, DecidableEq

/-- One optional date bound of `summary_for_user`.  The persisted `timestamp`
column holds strings, so once any rows remain the pandas comparison
`df[ts_col] >= from_dt` between `str` and `Timestamp` raises `TypeError`,
which the surrounding `try` converts to `INVALID_TIMESTAMP`; on an empty
frame the element-wise comparison is vacuous and passes through. -/
def applyDateFilter (rows : List CleanTx) (d : Option String) :
    Except ApiErr (List CleanTx) :=
  match d with
  | none => .ok rows
  | some s =>
    match parseTimestamp s with
    | none => .error (.invalidTimestamp s)
    | some _ =>
      if rows.isEmpty then .ok rows
      else .error (.invalidTimestamp s)

/-- `app/routes/summary.py::summary_for_user` over an in-memory dataset (the
required columns are present by construction of `CleanTx`; timestamp order on
the fixed-width persisted format coincides with string order). -/
def summary_for_user (dataset : Option (List CleanTx)) (user_id : String)
    (from_date to_date : Option String) : Except ApiErr SummaryOk :=
  match dataset with
  | none => .error (.unreadableCsv "No dataset available. Please upload a file using POST /upload first.")
  | some rows =>
    let byUser := rows.filter (fun r => r.user_id == user_id)
    match applyDateFilter byUser from_date with
    | .error e => .error e
    | .ok f1 =>
      match applyDateFilter f1 to_date with
      | .error e => .error e
      | .ok f2 =>
        if f2.isEmpty then .error (.userNotFound user_id)
        else
          let amounts := f2.map (fun r => r.transaction_amount)
          let stamps := f2.map (fun r => r.timestamp)
          .ok ⟨user_id, amounts.length, amounts.min?, amounts.max?,
               some (amounts.sum / (amounts.length : ℚ)), some amounts.sum,
               stamps.min?, stamps.max?⟩

/-! ## Concrete fixtures used by witnesses and counterexamples -/

/-- A concrete stand-in for `sha256_bytes` (the theorems hold for every hash
function; witnesses pick this one). -/
def hash0 : List Nat → String := fun _ => "h"

/-- A concrete `pd.read_csv` stand-in that always fails to parse. -/
def parseFail0 : List Nat → Except String DataFrameM := fun _ => .error "ParserError"

/-- A concrete `pd.read_csv` stand-in returning one well-formed row. -/
def parseOk0 : List Nat → Except String DataFrameM := fun _ =>
  .ok ⟨["transaction_id", "user_id", "product_id", "timestamp", "transaction_amount"],
       [["1", "u1", "p1", "2025-01-01T10:00:00Z", "10"]]⟩

/-- Fresh durable state: no dataset, empty manifest. -/
def st0 : SystemState := ⟨none, []⟩

/-- The raw fixture row of the spec's round-trip example. -/
def rawRow0 : RawTx := ⟨"001", "u1", "p1", "2025-01-01T10:00:00Z", "10"⟩

/-- The normalised form of `rawRow0` (amount spelled as the normaliser builds
it, so the two sides are definitionally equal). -/
def cleanRow0 : CleanTx :=
  ⟨"001", "u1", "p1", "2025-01-01T10:00:00Z", round2 (natOfDigits ['1', '0'] : ℚ)⟩

/-- State after one successful ingest of the bytes hashed by `hash0`. -/
def stReady : SystemState :=
  ⟨some [⟨"001", "u1", "p1", "2025-01-01T10:00:00Z", 10⟩],
   [some ⟨"t1", "ready", "h", some 1, none⟩]⟩

/-! ## Helper lemmas -/

theorem validate_and_normalise_ok (pa : String → Option ℚ)
    (pt : String → Option UTCTime) (l : List RawTx) (out : List CleanTx)
    (h : validate_and_normalise pa pt l = .ok out) :
    out = survivingRows pa pt l ∧ out ≠ [] := by
  rw [validate_and_normalise] at h
  split at h
  · cases h
  · rw [normalise_dataframe] at h
    split at h
    · cases h
    · rename_i hne
      cases h
      exact ⟨rfl, by simpa [List.isEmpty_iff] using hne⟩

theorem countReady_one_isSome (m : List (Option IngestRecord)) (c : String)
    (h : countReady m c = 1) : (find_by_checksum m c).isSome := by
  rw [find_by_checksum, List.find?_isSome]
  rw [countReady] at h
  have hnil : (iterManifest m).filter
      (fun rec => rec.checksum_sha256 == c && rec.status == "ready") ≠ [] := by
    intro hn
    rw [hn] at h
    cases h
  obtain ⟨x, hx⟩ := List.exists_mem_of_ne_nil _ hnil
  have hx' := List.mem_filter.mp hx
  exact ⟨x, hx'.1, hx'.2⟩

theorem append_ingest_master (st : SystemState) (i s c : String)
    (rows : Option Nat) (err : Option String) :
    (append_ingest st i s c rows err).master = st.master := rfl

theorem digitChar_isDigit (n : Nat) : (digitChar n).isDigit = true := by
  have h : n % 10 < 10 := Nat.mod_lt _ (by decide)
  unfold digitChar
  revert h
  generalize n % 10 = r
  intro h
  interval_cases r <;> decide

theorem formatIsoZ_isIsoZSecond (t : UTCTime) :
    isIsoZSecond (formatIsoZ t) = true := by
  simp [formatIsoZ, isIsoZSecond, pad4L, pad2L, digitChar_isDigit]

/-! ## Claim theorems -/

/-- C4: the Atomic Merge Engine creates the dataset containing exactly the new
rows when none existed, and otherwise produces the existing rows in their
original order followed by the new rows — no existing row is lost, duplicated,
or reordered. -/
theorem merge_preserves_existing_rows :
    (∀ newRows : List CleanTx, mergeMaster none newRows = newRows) ∧
    (∀ existing newRows : List CleanTx,
      mergeMaster (some existing) newRows = existing ++ newRows ∧
      (mergeMaster (some existing) newRows).take existing.length = existing ∧
      (mergeMaster (some existing) newRows).drop existing.length = newRows) := by
  constructor
  · intro newRows
    rfl
  · intro existing newRows
    refine ⟨rfl, ?_, ?_⟩
    · simp [mergeMaster]
    · simp [mergeMaster]

/-- C6: `find_by_checksum` returns a record exactly when some well-formed
manifest entry carries the checksum with status `ready`; any returned record
has that checksum and status `ready` (so `failed` entries are never returned),
and a malformed manifest line is skipped without affecting the scan. -/
theorem find_by_checksum_spec (m : List (Option IngestRecord)) (c : String) :
    ((find_by_checksum m c).isSome ↔
      ∃ rec : IngestRecord, some rec ∈ m ∧
        rec.checksum_sha256 = c ∧ rec.status = "ready") ∧
    (∀ rec, find_by_checksum m c = some rec →
      rec.checksum_sha256 = c ∧ rec.status = "ready" ∧ some rec ∈ m) ∧
    (∀ m1 m2, find_by_checksum (m1 ++ none :: m2) c = find_by_checksum (m1 ++ m2) c) := by
  refine ⟨?_, ?_, ?_⟩
  · rw [find_by_checksum, List.find?_isSome]
    constructor
    · rintro ⟨x, hx, hpx⟩
      rw [iterManifest, List.mem_filterMap] at hx
      obtain ⟨a, ha, hax⟩ := hx
      simp only [id] at hax
      subst hax
      simp only [Bool.and_eq_true, beq_iff_eq] at hpx
      exact ⟨x, ha, hpx.1, hpx.2⟩
    · rintro ⟨rec, hm, hc, hs⟩
      refine ⟨rec, ?_, ?_⟩
      · rw [iterManifest, List.mem_filterMap]
        exact ⟨some rec, hm, rfl⟩
      · simp [hc, hs]
  · intro rec h
    have hp := List.find?_some h
    have hm := List.mem_of_find?_eq_some h
    simp only [Bool.and_eq_true, beq_iff_eq] at hp
    refine ⟨hp.1, hp.2, ?_⟩
    rw [iterManifest, List.mem_filterMap] at hm
    obtain ⟨a, ha, hax⟩ := hm
    simp only [id] at hax
    subst hax
    exact ha
  · intro m1 m2
    simp [find_by_checksum, iterManifest, List.filterMap_append]

/-- C8: during validation a row with an empty required field after trimming or
an unparseable amount or timestamp is dropped rather than failing the batch;
the batch fails (always with an `EMPTY_CSV` error) exactly when zero rows
survive the dropping, and otherwise succeeds with precisely the surviving
rows. -/
theorem validate_rows_empty_input_iff (pa : String → Option ℚ)
    (pt : String → Option UTCTime) (l : List RawTx) :
    ((∃ d, validate_and_normalise pa pt l = .error (.emptyCsv d)) ↔
      survivingRows pa pt l = []) ∧
    (∀ e, validate_and_normalise pa pt l = .error e → ∃ d, e = .emptyCsv d) ∧
    (survivingRows pa pt l ≠ [] →
      validate_and_normalise pa pt l = .ok (survivingRows pa pt l)) := by
  by_cases hl : l.isEmpty
  · have hnil : l = [] := List.isEmpty_iff.mp hl
    subst hnil
    refine ⟨?_, ?_, ?_⟩
    · simp [validate_and_normalise, survivingRows, drop_rows_with_empty_requireds]
    · intro e he
      simp only [validate_and_normalise, List.isEmpty_nil, if_true] at he
      exact ⟨some "CSV has headers but zero rows", by cases he; rfl⟩
    · intro hne
      exact absurd (by simp [survivingRows, drop_rows_with_empty_requireds]) hne
  · rw [validate_and_normalise, if_neg (by simp [hl])]
    rw [normalise_dataframe]
    by_cases hv : ((drop_rows_with_empty_requireds l).filterMap (coerceRow pa pt)).isEmpty
    · have hs : survivingRows pa pt l = [] := List.isEmpty_iff.mp hv
      rw [if_pos hv]
      refine ⟨?_, ?_, ?_⟩
      · simp [hs]
      · intro e he
        exact ⟨some "All rows invalid after coercion", by cases he; rfl⟩
      · intro hne
        exact absurd hs hne
    · have hs : survivingRows pa pt l ≠ [] := by
        simpa [survivingRows, List.isEmpty_iff] using hv
      rw [if_neg hv]
      refine ⟨?_, ?_, ?_⟩
      · constructor
        · rintro ⟨d, hd⟩
          cases hd
        · intro h
          exact absurd h hs
      · intro e he
        cases he
      · intro _
        rfl

/-- C2: an upload terminating in any ingestion error leaves the Master Dataset
exactly as it was — failure never mutates the dataset. -/
theorem failed_upload_preserves_master (hash : List Nat → String)
    (parse : List Nat → Except String DataFrameM) (pa : String → Option ℚ)
    (pt : String → Option UTCTime) (maxBytes : Nat) (ingestId filename : String)
    (raw : List Nat) (st st' : SystemState) (err : ApiErr)
    (h : save_upload_to_disk hash parse pa pt maxBytes ingestId filename raw st
      = (st', .error err)) : st'.master = st.master := by
  simp only [save_upload_to_disk] at h
  repeat' split at h
  all_goals rw [Prod.mk.injEq] at h
  all_goals first
    | exact Except.noConfusion h.2
    | rw [← h.1]
  all_goals rfl

/-- Witness for C2: a concrete rejected upload (bad extension) leaves the
dataset untouched. -/
theorem failed_upload_preserves_master_witness :
    (save_upload_to_disk hash0 parseFail0 parseDecimal parseTimestamp 10 "t0"
      "readme.md" [1] st0).1.master = st0.master :=
  failed_upload_preserves_master hash0 parseFail0 parseDecimal parseTimestamp 10
    "t0" "readme.md" [1] st0
    (save_upload_to_disk hash0 parseFail0 parseDecimal parseTimestamp 10 "t0"
      "readme.md" [1] st0).1 .invalidFileType rfl

/-- C1: re-uploading bytes whose checksum already has exactly one `ready`
manifest record short-circuits: the call succeeds, performs no merge and no
manifest append (the state is unchanged), and the manifest still holds exactly
one `ready` record for that checksum. -/
theorem duplicate_upload_idempotent (hash : List Nat → String)
    (parse : List Nat → Except String DataFrameM) (pa : String → Option ℚ)
    (pt : String → Option UTCTime) (maxBytes : Nat) (ingestId filename : String)
    (raw : List Nat) (st st' : SystemState) (res : Except ApiErr String)
    (hfn : csvName filename = true)
    (hsz : raw.length ≤ maxBytes) (hne : raw.isEmpty = false)
    (hcr : countReady st.manifest (hash raw) = 1)
    (h : save_upload_to_disk hash parse pa pt maxBytes ingestId filename raw st
      = (st', res)) :
    (∃ p, res = .ok p) ∧ st' = st ∧ countReady st'.manifest (hash raw) = 1 := by
  obtain ⟨r, hr⟩ := Option.isSome_iff_exists.mp (countReady_one_isSome _ _ hcr)
  rw [save_upload_to_disk] at h
  rw [if_neg (by simp [hfn])] at h
  rw [if_neg (Nat.not_lt.mpr hsz)] at h
  rw [if_neg (by simp [hne])] at h
  rw [hr] at h
  rw [Prod.mk.injEq] at h
  refine ⟨⟨_, h.2.symm⟩, h.1.symm, ?_⟩
  rw [← h.1]
  exact hcr

/-- Witness for C1: a duplicate of the already-ingested bytes in `stReady`. -/
theorem duplicate_upload_idempotent_witness :
    (∃ p, (save_upload_to_disk hash0 parseFail0 parseDecimal parseTimestamp 10
      "t0" "a.csv" [1] stReady).2 = .ok p) ∧
    (save_upload_to_disk hash0 parseFail0 parseDecimal parseTimestamp 10
      "t0" "a.csv" [1] stReady).1 = stReady ∧
    countReady (save_upload_to_disk hash0 parseFail0 parseDecimal parseTimestamp 10
      "t0" "a.csv" [1] stReady).1.manifest (hash0 [1]) = 1 :=
  duplicate_upload_idempotent hash0 parseFail0 parseDecimal parseTimestamp 10
    "t0" "a.csv" [1] stReady _ _ (by decide) (by decide) (by decide) (by decide) rfl

/-- C10: every record the ingestion pipeline appends to the manifest carries
exactly the `append_ingest` fields with this run's ingest id and checksum,
status `ready` or `failed`; a `ready` record has a null error and
`rows_appended` equal to the (positive) surviving row count, and a `failed`
record has null `rows_appended` and a non-null error message. -/
theorem appended_records_wellformed (hash : List Nat → String)
    (parse : List Nat → Except String DataFrameM) (pa : String → Option ℚ)
    (pt : String → Option UTCTime) (maxBytes : Nat) (ingestId filename : String)
    (raw : List Nat) (st : SystemState) :
    ∃ newRecs : List (Option IngestRecord),
      (save_upload_to_disk hash parse pa pt maxBytes ingestId filename raw st).1.manifest
        = st.manifest ++ newRecs ∧
      ∀ x ∈ newRecs, ∃ rec : IngestRecord, x = some rec ∧
        rec.ingest_id = ingestId ∧ rec.checksum_sha256 = hash raw ∧
        (rec.status = "ready" ∨ rec.status = "failed") ∧
        (rec.status = "ready" →
          rec.error = none ∧
          ∃ df cm, parse raw = .ok df ∧
            resolve_required_columns_from_df df = .ok cm ∧
            rec.rows_appended
              = some (survivingRows pa pt (df.rows.map (rawTxOf df.cols cm))).length ∧
            (survivingRows pa pt (df.rows.map (rawTxOf df.cols cm))).length ≠ 0) ∧
        (rec.status = "failed" → rec.rows_appended = none ∧ ∃ msg, rec.error = some msg) := by
  rw [save_upload_to_disk]
  split
  · exact ⟨[], by simp, by intro x hx; cases hx⟩
  · split
    · exact ⟨[], by simp, by intro x hx; cases hx⟩
    · split
      · exact ⟨[], by simp, by intro x hx; cases hx⟩
      · split
        · exact ⟨[], by simp, by intro x hx; cases hx⟩
        · split
          · rename_i e heq
            refine ⟨[some ⟨ingestId, "failed", hash raw, none, some e⟩,
              some ⟨ingestId, "failed", hash raw, none,
                some (httpText (.unreadableCsv e))⟩], by simp [append_ingest], ?_⟩
            intro x hx
            simp only [List.mem_cons, List.not_mem_nil, or_false] at hx
            rcases hx with rfl | rfl
            · refine ⟨_, rfl, rfl, rfl, Or.inr rfl, ?_, ?_⟩
              · intro hcon
                simp at hcon
              · exact fun _ => ⟨rfl, e, rfl⟩
            · refine ⟨_, rfl, rfl, rfl, Or.inr rfl, ?_, ?_⟩
              · intro hcon
                simp at hcon
              · exact fun _ => ⟨rfl, httpText (.unreadableCsv e), rfl⟩
          · rename_i df hdf
            split
            · rename_i err herr
              refine ⟨[some ⟨ingestId, "failed", hash raw, none, some (httpText err)⟩],
                by simp [append_ingest], ?_⟩
              intro x hx
              simp only [List.mem_cons, List.not_mem_nil, or_false] at hx
              subst hx
              refine ⟨_, rfl, rfl, rfl, Or.inr rfl, ?_, ?_⟩
              · intro hcon
                simp at hcon
              · exact fun _ => ⟨rfl, httpText err, rfl⟩
            · rename_i cm hcm
              split
              · rename_i err herr
                refine ⟨[some ⟨ingestId, "failed", hash raw, none, some (httpText err)⟩],
                  by simp [append_ingest], ?_⟩
                intro x hx
                simp only [List.mem_cons, List.not_mem_nil, or_false] at hx
                subst hx
                refine ⟨_, rfl, rfl, rfl, Or.inr rfl, ?_, ?_⟩
                · intro hcon
                  simp at hcon
                · exact fun _ => ⟨rfl, httpText err, rfl⟩
              · rename_i clean hclean
                obtain ⟨hcl, hne⟩ := validate_and_normalise_ok pa pt _ clean hclean
                refine ⟨[some ⟨ingestId, "ready", hash raw, some clean.length, none⟩],
                  by simp [append_ingest], ?_⟩
                intro x hx
                simp only [List.mem_cons, List.not_mem_nil, or_false] at hx
                subst hx
                refine ⟨_, rfl, rfl, rfl, Or.inl rfl, ?_, ?_⟩
                · intro _
                  refine ⟨rfl, df, cm, hdf, hcm, ?_, ?_⟩
                  · rw [← hcl]
                  · rw [← hcl]
                    intro hlen
                    exact hne (List.length_eq_zero.mp hlen)
                · intro hcon
                  simp at hcon

/-- Witness for C10: a concrete unreadable upload, whose two appended records
are both well-formed `failed` records. -/
theorem appended_records_wellformed_witness :
    ∃ newRecs : List (Option IngestRecord),
      (save_upload_to_disk hash0 parseFail0 parseDecimal parseTimestamp 10 "t0"
        "a.csv" [1] st0).1.manifest = st0.manifest ++ newRecs ∧
      ∀ x ∈ newRecs, ∃ rec : IngestRecord, x = some rec ∧
        rec.ingest_id = "t0" ∧ rec.checksum_sha256 = hash0 [1] ∧
        (rec.status = "ready" ∨ rec.status = "failed") ∧
        (rec.status = "ready" →
          rec.error = none ∧
          ∃ df cm, parseFail0 [1] = .ok df ∧
            resolve_required_columns_from_df df = .ok cm ∧
            rec.rows_appended
              = some (survivingRows parseDecimal parseTimestamp
                  (df.rows.map (rawTxOf df.cols cm))).length ∧
            (survivingRows parseDecimal parseTimestamp
                  (df.rows.map (rawTxOf df.cols cm))).length ≠ 0) ∧
        (rec.status = "failed" → rec.rows_appended = none ∧ ∃ msg, rec.error = some msg) :=
  appended_records_wellformed hash0 parseFail0 parseDecimal parseTimestamp 10 "t0"
    "a.csv" [1] st0

theorem resolve_error_shape (df : DataFrameM) (e : ApiErr)
    (h : resolve_required_columns_from_df df = .error e) :
    ∃ ms exp, e = .missingColumns ms exp := by
  rw [resolve_required_columns_from_df] at h
  repeat' split at h
  all_goals cases h
  all_goals exact ⟨_, _, rfl⟩

theorem validate_error_shape (pa : String → Option ℚ) (pt : String → Option UTCTime)
    (l : List RawTx) (e : ApiErr) (h : validate_and_normalise pa pt l = .error e) :
    ∃ d, e = .emptyCsv (some d) := by
  rw [validate_and_normalise] at h
  split at h
  · cases h
    exact ⟨_, rfl⟩
  · rw [normalise_dataframe] at h
    split at h
    · cases h
      exact ⟨_, rfl⟩
    · cases h

/-- Counterexample to C3 as stated: a size-cap rejection is a terminal failure
yet appends no manifest record at all — the manifest is exactly as before, not
extended by one `failed` record. -/
theorem manifest_exactly_once_refuted :
    (save_upload_to_disk hash0 parseFail0 parseDecimal parseTimestamp 2 "t0" "a.csv"
      [0, 0, 0] st0).2 = .error (.fileTooLarge 2) ∧
    (save_upload_to_disk hash0 parseFail0 parseDecimal parseTimestamp 2 "t0" "a.csv"
      [0, 0, 0] st0).1.manifest = st0.manifest := by
  exact ⟨rfl, rfl⟩

/-- C3 amended: what each terminal outcome actually appends.  A successful
non-duplicate merge appends exactly one `ready` record; a duplicate
short-circuit and the failures raised before the checksum lookup (invalid file
type, size cap, empty body) append nothing; an unreadable-content failure
appends two `failed` records (one before the re-raise and one in the
catch-all); a missing-columns or empty-after-validation failure appends
exactly one `failed` record. -/
theorem manifest_append_characterisation (hash : List Nat → String)
    (parse : List Nat → Except String DataFrameM) (pa : String → Option ℚ)
    (pt : String → Option UTCTime) (maxBytes : Nat) (ingestId filename : String)
    (raw : List Nat) (st st' : SystemState) (res : Except ApiErr String)
    (h : save_upload_to_disk hash parse pa pt maxBytes ingestId filename raw st
      = (st', res)) :
    ∃ newRecs : List (Option IngestRecord),
      st'.manifest = st.manifest ++ newRecs ∧
      ((res = .error .invalidFileType ∨ res = .error (.fileTooLarge maxBytes) ∨
        res = .error (.emptyCsv none)) → newRecs = []) ∧
      (∀ p, res = .ok p →
        ((find_by_checksum st.manifest (hash raw)).isSome → newRecs = []) ∧
        (find_by_checksum st.manifest (hash raw) = none →
          ∃ rec : IngestRecord, newRecs = [some rec] ∧ rec.status = "ready")) ∧
      (∀ e, res = .error (.unreadableCsv e) →
        ∃ r1 r2 : IngestRecord, newRecs = [some r1, some r2] ∧
          r1.status = "failed" ∧ r2.status = "failed") ∧
      (∀ ms exp, res = .error (.missingColumns ms exp) →
        ∃ rec : IngestRecord, newRecs = [some rec] ∧ rec.status = "failed") ∧
      (∀ d, res = .error (.emptyCsv (some d)) →
        ∃ rec : IngestRecord, newRecs = [some rec] ∧ rec.status = "failed") := by
  rw [save_upload_to_disk] at h
  split at h
  · rw [Prod.mk.injEq] at h
    obtain ⟨h1, h2⟩ := h
    subst h1
    subst h2
    refine ⟨[], by simp, fun _ => rfl, ?_, ?_, ?_, ?_⟩
    · intro p hp
      exact Except.noConfusion hp
    · intro e hp
      injection hp with hp2
      exact ApiErr.noConfusion hp2
    · intro ms exp hp
      injection hp with hp2
      exact ApiErr.noConfusion hp2
    · intro d hp
      injection hp with hp2
      exact ApiErr.noConfusion hp2
  · split at h
    · rw [Prod.mk.injEq] at h
      obtain ⟨h1, h2⟩ := h
      subst h1
      subst h2
      refine ⟨[], by simp, fun _ => rfl, ?_, ?_, ?_, ?_⟩
      · intro p hp
        exact Except.noConfusion hp
      · intro e hp
        injection hp with hp2
        exact ApiErr.noConfusion hp2
      · intro ms exp hp
        injection hp with hp2
        exact ApiErr.noConfusion hp2
      · intro d hp
        injection hp with hp2
        exact ApiErr.noConfusion hp2
    · split at h
      · rw [Prod.mk.injEq] at h
        obtain ⟨h1, h2⟩ := h
        subst h1
        subst h2
        refine ⟨[], by simp, fun _ => rfl, ?_, ?_, ?_, ?_⟩
        · intro p hp
          exact Except.noConfusion hp
        · intro e hp
          injection hp with hp2
          exact ApiErr.noConfusion hp2
        · intro ms exp hp
          injection hp with hp2
          exact ApiErr.noConfusion hp2
        · intro d hp
          injection hp with hp2
          injection hp2 with hp3
          exact Option.noConfusion hp3
      · split at h
        · rename_i r heqfind
          rw [Prod.mk.injEq] at h
          obtain ⟨h1, h2⟩ := h
          subst h1
          subst h2
          refine ⟨[], by simp, ?_, ?_, ?_, ?_, ?_⟩
          · intro hdisj
            rfl
          · intro p hp
            refine ⟨fun _ => rfl, fun hnone => ?_⟩
            rw [heqfind] at hnone
            exact Option.noConfusion hnone
          · intro e hp
            exact Except.noConfusion hp
          · intro ms exp hp
            exact Except.noConfusion hp
          · intro d hp
            exact Except.noConfusion hp
        · rename_i heqfind
          split at h
          · rename_i e heqparse
            rw [Prod.mk.injEq] at h
            obtain ⟨h1, h2⟩ := h
            subst h1
            subst h2
            refine ⟨[some ⟨ingestId, "failed", hash raw, none, some e⟩,
              some ⟨ingestId, "failed", hash raw, none,
                some (httpText (.unreadableCsv e))⟩], by simp [append_ingest], ?_, ?_, ?_, ?_, ?_⟩
            · intro hdisj
              rcases hdisj with hp | hp | hp
              all_goals injection hp with hp2
              all_goals exact ApiErr.noConfusion hp2
            · intro p hp
              exact Except.noConfusion hp
            · intro e2 hp
              exact ⟨_, _, rfl, rfl, rfl⟩
            · intro ms exp hp
              injection hp with hp2
              exact ApiErr.noConfusion hp2
            · intro d hp
              injection hp with hp2
              exact ApiErr.noConfusion hp2
          · rename_i df heqparse
            split at h
            · rename_i err heqres
              obtain ⟨ms0, exp0, hshape⟩ := resolve_error_shape df err heqres
              subst hshape
              rw [Prod.mk.injEq] at h
              obtain ⟨h1, h2⟩ := h
              subst h1
              subst h2
              refine ⟨[some ⟨ingestId, "failed", hash raw, none,
                some (httpText (.missingColumns ms0 exp0))⟩],
                by simp [append_ingest], ?_, ?_, ?_, ?_, ?_⟩
              · intro hdisj
                rcases hdisj with hp | hp | hp
                all_goals injection hp with hp2
                all_goals exact ApiErr.noConfusion hp2
              · intro p hp
                exact Except.noConfusion hp
              · intro e2 hp
                injection hp with hp2
                exact ApiErr.noConfusion hp2
              · intro ms exp hp
                exact ⟨_, rfl, rfl⟩
              · intro d hp
                injection hp with hp2
                exact ApiErr.noConfusion hp2
            · rename_i cm heqres
              split at h
              · rename_i err heqval
                obtain ⟨d0, hshape⟩ := validate_error_shape pa pt _ err heqval
                subst hshape
                rw [Prod.mk.injEq] at h
                obtain ⟨h1, h2⟩ := h
                subst h1
                subst h2
                refine ⟨[some ⟨ingestId, "failed", hash raw, none,
                  some (httpText (.emptyCsv (some d0)))⟩],
                  by simp [append_ingest], ?_, ?_, ?_, ?_, ?_⟩
                · intro hdisj
                  rcases hdisj with hp | hp | hp
                  · injection hp with hp2
                    exact ApiErr.noConfusion hp2
                  · injection hp with hp2
                    exact ApiErr.noConfusion hp2
                  · injection hp with hp2
                    injection hp2 with hp3
                    exact Option.noConfusion hp3
                · intro p hp
                  exact Except.noConfusion hp
                · intro e2 hp
                  injection hp with hp2
                  exact ApiErr.noConfusion hp2
                · intro ms exp hp
                  injection hp with hp2
                  exact ApiErr.noConfusion hp2
                · intro d hp
                  exact ⟨_, rfl, rfl⟩
              · rename_i clean heqval
                rw [Prod.mk.injEq] at h
                obtain ⟨h1, h2⟩ := h
                subst h1
                subst h2
                refine ⟨[some ⟨ingestId, "ready", hash raw, some clean.length, none⟩],
                  by simp [append_ingest], ?_, ?_, ?_, ?_, ?_⟩
                · intro hdisj
                  rcases hdisj with hp | hp | hp
                  all_goals exact Except.noConfusion hp
                · intro p hp
                  refine ⟨fun hs => ?_, fun _ => ⟨_, rfl, rfl⟩⟩
                  rw [heqfind] at hs
                  simp at hs
                · intro e2 hp
                  exact Except.noConfusion hp
                · intro ms exp hp
                  exact Except.noConfusion hp
                · intro d hp
                  exact Except.noConfusion hp

/-- Witness for C3's amended theorem: a concrete unreadable upload appends two
`failed` records. -/
theorem manifest_append_characterisation_witness :
    ∃ r1 r2 : IngestRecord,
      (save_upload_to_disk hash0 parseFail0 parseDecimal parseTimestamp 10 "t1"
        "b.csv" [2] st0).1.manifest = st0.manifest ++ [some r1, some r2] ∧
      r1.status = "failed" ∧ r2.status = "failed" := by
  obtain ⟨newRecs, hmans, _, _, hunread, _, _⟩ :=
    manifest_append_characterisation hash0 parseFail0 parseDecimal parseTimestamp
      10 "t1" "b.csv" [2] st0
      (save_upload_to_disk hash0 parseFail0 parseDecimal parseTimestamp 10 "t1"
        "b.csv" [2] st0).1
      (save_upload_to_disk hash0 parseFail0 parseDecimal parseTimestamp 10 "t1"
        "b.csv" [2] st0).2 rfl
  obtain ⟨r1, r2, hrecs, hs1, hs2⟩ := hunread "ParserError" rfl
  exact ⟨r1, r2, by rw [hmans, hrecs], hs1, hs2⟩

/-- Counterexample to C7 as stated: with headers `product_id, timestamp,
transaction_amount` both `transaction_id` and `user_id` are unresolvable, yet
the `MissingColumns` detail names only `transaction_id` — not every
unresolvable canonical field. -/
theorem missing_columns_detail_incomplete :
    resolve_required_columns_from_df
      ⟨["product_id", "timestamp", "transaction_amount"], []⟩
      = .error (.missingColumns ["transaction_id"] canonicalFields) ∧
    resolveField ["product_id", "timestamp", "transaction_amount"] uidVariants = none ∧
    "user_id" ∉ (["transaction_id"] : List String) := by
  exact ⟨rfl, rfl, by decide⟩

/-- C7 amended: schema resolution succeeds with a total mapping exactly when
every canonical field has an acceptable variant among the headers under
case-insensitive matching; otherwise it fails with `MissingColumns` whose
detail names the first unresolvable canonical field (in the fixed canonical
order) together with the full expected set, and no partial mapping is
returned. -/
theorem resolve_columns_characterisation (df : DataFrameM) :
    ((∃ cm, resolve_required_columns_from_df df = .ok cm) ↔ missingFields df.cols = []) ∧
    (∀ cm, resolve_required_columns_from_df df = .ok cm →
      resolveField df.cols tidVariants = some cm.transaction_id ∧
      resolveField df.cols uidVariants = some cm.user_id ∧
      resolveField df.cols pidVariants = some cm.product_id ∧
      resolveField df.cols tsVariants = some cm.timestamp ∧
      resolveField df.cols amtVariants = some cm.transaction_amount) ∧
    (∀ ms exp, resolve_required_columns_from_df df = .error (.missingColumns ms exp) →
      exp = canonicalFields ∧ (missingFields df.cols).take 1 = ms) := by
  cases htid : resolveField df.cols tidVariants with
  | none =>
    refine ⟨?_, ?_, ?_⟩
    · constructor
      · rintro ⟨cm, hcm⟩
        rw [resolve_required_columns_from_df, htid] at hcm
        exact Except.noConfusion hcm
      · intro hm
        simp [missingFields, REQUIRED_COLUMNS, htid] at hm
    · intro cm hcm
      rw [resolve_required_columns_from_df, htid] at hcm
      exact Except.noConfusion hcm
    · intro ms exp hcm
      rw [resolve_required_columns_from_df, htid] at hcm
      injection hcm with h2
      injection h2 with hms hexp
      subst hms
      subst hexp
      exact ⟨rfl, by simp [missingFields, REQUIRED_COLUMNS, htid]⟩
  | some a1 =>
    cases huid : resolveField df.cols uidVariants with
    | none =>
      refine ⟨?_, ?_, ?_⟩
      · constructor
        · rintro ⟨cm, hcm⟩
          rw [resolve_required_columns_from_df, htid, huid] at hcm
          exact Except.noConfusion hcm
        · intro hm
          simp [missingFields, REQUIRED_COLUMNS, htid, huid] at hm
      · intro cm hcm
        rw [resolve_required_columns_from_df, htid, huid] at hcm
        exact Except.noConfusion hcm
      · intro ms exp hcm
        rw [resolve_required_columns_from_df, htid, huid] at hcm
        injection hcm with h2
        injection h2 with hms hexp
        subst hms
        subst hexp
        exact ⟨rfl, by simp [missingFields, REQUIRED_COLUMNS, htid, huid]⟩
    | some a2 =>
      cases hpid : resolveField df.cols pidVariants with
      | none =>
        refine ⟨?_, ?_, ?_⟩
        · constructor
          · rintro ⟨cm, hcm⟩
            rw [resolve_required_columns_from_df, htid, huid, hpid] at hcm
            exact Except.noConfusion hcm
          · intro hm
            simp [missingFields, REQUIRED_COLUMNS, htid, huid, hpid] at hm
        · intro cm hcm
          rw [resolve_required_columns_from_df, htid, huid, hpid] at hcm
          exact Except.noConfusion hcm
        · intro ms exp hcm
          rw [resolve_required_columns_from_df, htid, huid, hpid] at hcm
          injection hcm with h2
          injection h2 with hms hexp
          subst hms
          subst hexp
          exact ⟨rfl, by simp [missingFields, REQUIRED_COLUMNS, htid, huid, hpid]⟩
      | some a3 =>
        cases hts : resolveField df.cols tsVariants with
        | none =>
          refine ⟨?_, ?_, ?_⟩
          · constructor
            · rintro ⟨cm, hcm⟩
              rw [resolve_required_columns_from_df, htid, huid, hpid, hts] at hcm
              exact Except.noConfusion hcm
            · intro hm
              simp [missingFields, REQUIRED_COLUMNS, htid, huid, hpid, hts] at hm
          · intro cm hcm
            rw [resolve_required_columns_from_df, htid, huid, hpid, hts] at hcm
            exact Except.noConfusion hcm
          · intro ms exp hcm
            rw [resolve_required_columns_from_df, htid, huid, hpid, hts] at hcm
            injection hcm with h2
            injection h2 with hms hexp
            subst hms
            subst hexp
            exact ⟨rfl, by simp [missingFields, REQUIRED_COLUMNS, htid, huid, hpid, hts]⟩
        | some a4 =>
          cases hamt : resolveField df.cols amtVariants with
          | none =>
            refine ⟨?_, ?_, ?_⟩
            · constructor
              · rintro ⟨cm, hcm⟩
                rw [resolve_required_columns_from_df, htid, huid, hpid, hts, hamt] at hcm
                exact Except.noConfusion hcm
              · intro hm
                simp [missingFields, REQUIRED_COLUMNS, htid, huid, hpid, hts, hamt] at hm
            · intro cm hcm
              rw [resolve_required_columns_from_df, htid, huid, hpid, hts, hamt] at hcm
              exact Except.noConfusion hcm
            · intro ms exp hcm
              rw [resolve_required_columns_from_df, htid, huid, hpid, hts, hamt] at hcm
              injection hcm with h2
              injection h2 with hms hexp
              subst hms
              subst hexp
              exact ⟨rfl, by simp [missingFields, REQUIRED_COLUMNS, htid, huid, hpid, hts, hamt]⟩
          | some a5 =>
            refine ⟨?_, ?_, ?_⟩
            · constructor
              · intro _
                simp [missingFields, REQUIRED_COLUMNS, htid, huid, hpid, hts, hamt]
              · intro _
                exact ⟨⟨a1, a2, a3, a4, a5⟩,
                  by rw [resolve_required_columns_from_df, htid, huid, hpid, hts, hamt]⟩
            · intro cm hcm
              rw [resolve_required_columns_from_df, htid, huid, hpid, hts, hamt] at hcm
              injection hcm with h2
              subst h2
              exact ⟨rfl, rfl, rfl, rfl, rfl⟩
            · intro ms exp hcm
              rw [resolve_required_columns_from_df, htid, huid, hpid, hts, hamt] at hcm
              exact Except.noConfusion hcm

/-- Witness for C7's amended theorem: the header-variant set from the test
fixture resolves totally. -/
theorem resolve_columns_characterisation_witness :
    ∃ cm, resolve_required_columns_from_df
      ⟨["Transaction-ID", "User", "Product", "DateTime", "Amount"], []⟩ = .ok cm :=
  (resolve_columns_characterisation
    ⟨["Transaction-ID", "User", "Product", "DateTime", "Amount"], []⟩).1.mpr (by decide)

/-- C9: every row surviving normalisation persists its timestamp as an
ISO-8601 UTC string with `Z` suffix at second precision; the serialisation
ignores the fractional-second component (truncation); and the conforming
input `2025-01-01T10:00:00Z` round-trips unchanged. -/
theorem persisted_timestamp_iso_z :
    (∀ (pa : String → Option ℚ) (l : List RawTx) (c : CleanTx),
      c ∈ survivingRows pa parseTimestamp l → isIsoZSecond c.timestamp = true) ∧
    (∀ (t : UTCTime) (n : Nat),
      formatIsoZ ⟨t.year, t.month, t.day, t.hour, t.minute, t.second, n⟩
        = formatIsoZ t) ∧
    (survivingRows parseDecimal parseTimestamp
        [⟨"001", "u1", "p1", "2025-01-01T10:00:00Z", "10"⟩]).map
          (fun c => c.timestamp) = ["2025-01-01T10:00:00Z"] := by
  refine ⟨?_, ?_, ?_⟩
  · intro pa l c hc
    rw [survivingRows] at hc
    obtain ⟨r, _, hcr⟩ := List.mem_filterMap.mp hc
    rw [coerceRow] at hcr
    split at hcr
    · rename_i a t ha ht
      cases hcr
      exact formatIsoZ_isIsoZSecond t
    · exact Option.noConfusion hcr
  · intro t n
    cases t
    rfl
  · decide

/-- Witness for C9: the surviving row built from the conforming fixture has a
timestamp of the persisted shape. -/
theorem persisted_timestamp_iso_z_witness :
    isIsoZSecond cleanRow0.timestamp = true :=
  persisted_timestamp_iso_z.1 parseDecimal [rawRow0] cleanRow0
    (List.mem_singleton_self cleanRow0)

/-- Counterexample to C5 as stated: an existing dataset with no row for the
queried user makes the query entrypoint raise `USER_NOT_FOUND` (HTTP 404) —
it does not return a count-zero success. -/
theorem summary_no_match_not_success :
    summary_for_user (some [⟨"001", "u1", "p1", "2025-01-01T10:00:00Z", 10⟩])
      "u2" none none = .error (.userNotFound "u2") := rfl

/-- C5 amended: a query without date bounds whose exact-match `user_id` filter
leaves no rows ends in the `USER_NOT_FOUND` error, not a success (with date
bounds the string-typed timestamp column makes the code fail earlier with
`INVALID_TIMESTAMP`). -/
theorem summary_no_match_user_not_found (rows : List CleanTx) (uid : String)
    (hmatch : rows.filter (fun r => r.user_id == uid) = []) :
    summary_for_user (some rows) uid none none = .error (.userNotFound uid) := by
  simp [summary_for_user, applyDateFilter, hmatch]

/-- Witness for C5's amended theorem at a concrete dataset and user. -/
theorem summary_no_match_user_not_found_witness :
    summary_for_user (some [⟨"002", "u3", "p1", "2025-01-01T10:00:00Z", 5⟩])
      "u4" none none = .error (.userNotFound "u4") :=
  summary_no_match_user_not_found
    [⟨"002", "u3", "p1", "2025-01-01T10:00:00Z", 5⟩] "u4" (by decide)

/-- Witness for C6: in a manifest holding a malformed line, a `failed` record
and a `ready` record for checksum `c`, the scan returns the `ready` record. -/
theorem find_by_checksum_spec_witness :
    (⟨"t1", "ready", "c", some 2, none⟩ : IngestRecord).checksum_sha256 = "c" ∧
    (⟨"t1", "ready", "c", some 2, none⟩ : IngestRecord).status = "ready" ∧
    some (⟨"t1", "ready", "c", some 2, none⟩ : IngestRecord) ∈
      ([none, some ⟨"t0", "failed", "c", none, some "boom"⟩,
        some ⟨"t1", "ready", "c", some 2, none⟩] : List (Option IngestRecord)) :=
  (find_by_checksum_spec
    [none, some ⟨"t0", "failed", "c", none, some "boom"⟩,
     some ⟨"t1", "ready", "c", some 2, none⟩] "c").2.1
    ⟨"t1", "ready", "c", some 2, none⟩ (by decide)

/-- Witness for C8: a batch whose only row has an unparseable timestamp and
amount has no survivors and fails with the empty-input error. -/
theorem validate_rows_empty_input_iff_witness :
    ∃ d, validate_and_normalise parseDecimal parseTimestamp
      [⟨"1", "u", "p", "not-a-date", "abc"⟩] = .error (.emptyCsv d) :=
  (validate_rows_empty_input_iff parseDecimal parseTimestamp
    [⟨"1", "u", "p", "not-a-date", "abc"⟩]).1.mpr (by decide)
